import Mathlib

/-!
Shallow embedding of the session-pool and network-interception core of the
browser_rpc repository (file cdp_client.py): the NetworkInterceptor request
and response callbacks, the BrowserSession operations and teardown, and the
BrowserPool with its capacity bound, expiry sweep and mutual-exclusion lock.

External collaborators (the playwright browser engine, the event loop) are
modelled as oracles: each capability call is represented by an explicit
result value of type Except PyError that the caller passes in, and the
regular-expression engine re.search is a function parameter that may either
return a Boolean match verdict or raise.  Timestamps are natural numbers
(time.time values); Python float subtraction followed by a strictly-greater
comparison against a non-negative timeout agrees with truncated Nat
subtraction on that comparison.  The asyncio.Lock of the pool is modelled
explicitly as a Boolean field: asyncio.Lock is not reentrant, so an acquire
performed by the task that already holds the lock never completes, which the
step functions report as a blocked outcome.
-/

namespace BrowserRpc

/-- A Python exception value, abstracted to its class and message. -/
inductive PyError where
  | runtimeError (msg : String)
  | valueError (msg : String)
  | otherError (msg : String)
deriving Repr, DecidableEq

/-- First-some choice on options (Python or-else on optional lookups). -/
def optOr {α : Type} : Option α → Option α → Option α
  | some a, _ => some a
  | none, b => b

/-- The response dictionary stored into a request record by on_response:
status_code, headers, and the decoded body (None when decoding failed). -/
structure ResponseRecord where
  status_code : Nat
  headers : List (String × String)
  body : Option String
deriving Repr, DecidableEq

/-- One entry of NetworkInterceptor.requests (the request_data dictionary
built in on_request, lines 45-53 of cdp_client.py). -/
structure RequestRecord where
  request_id : String
  url : String
  method : String
  headers : List (String × String)
  post_data : Option String
  timestamp : Nat
  response : Option ResponseRecord
deriving Repr, DecidableEq

/-- NetworkInterceptor state: the ordered request store and the optional
URL filter pattern. -/
structure NetworkInterceptor where
  requests : List RequestRecord
  url_pattern : Option String
deriving Repr, DecidableEq

/-- The playwright Request object fields read by on_request. -/
structure RequestEvent where
  url : String
  method : String
  headers : List (String × String)
  post_data : Option String
deriving Repr, DecidableEq

/-- The playwright Response object fields read by on_response; the body is
passed separately as an oracle because response.body() is awaited and can
raise. -/
structure ResponseEvent where
  url : String
  status : Nat
  headers : List (String × String)
deriving Repr, DecidableEq

/-- The guard `if self.url_pattern and not re.search(self.url_pattern, url)`:
a None pattern and the empty-string pattern are falsy and disable filtering;
otherwise re.search runs and may raise.  Returns ok true when the event is
to be processed, ok false when it is filtered out, error when re.search
raised (to be caught by the callback except block). -/
def patternVerdict (search : String → String → Except PyError Bool)
    (pat : Option String) (url : String) : Except PyError Bool :=
  match pat with
  | none => Except.ok true
  | some p => if p = "" then Except.ok true else search p url

/-- The response dictionary written by on_response for one matched record:
the inner try decodes the body; on decode failure status and headers are
retained and the body is None (lines 68-81 of cdp_client.py). -/
def mkResponseRecord (ev : ResponseEvent) (bodyResult : Except PyError String) :
    ResponseRecord :=
  match bodyResult with
  | Except.ok s => { status_code := ev.status, headers := ev.headers, body := some s }
  | Except.error _ => { status_code := ev.status, headers := ev.headers, body := none }

/-- The for-loop of on_response (lines 66-82): scan the stored requests for
the first record with matching URL and empty response slot, fill it, break. -/
def fillFirst (url : String) (resp : ResponseRecord) :
    List RequestRecord → List RequestRecord
  | [] => []
  | r :: rest =>
    if r.url == url && r.response.isNone then
      { r with response := some resp } :: rest
    else
      r :: fillFirst url resp rest

/-- NetworkInterceptor.on_request (lines 39-57).  The whole body sits in a
try block whose except clause logs and returns, so the callback itself never
raises; the Boolean component records whether that except clause fired (an
exception was swallowed).  The record stores post_data only when the method
is POST (line 50). -/
def NetworkInterceptor.on_request (search : String → String → Except PyError Bool)
    (itc : NetworkInterceptor) (ev : RequestEvent) (fresh_id : String) (now : Nat) :
    NetworkInterceptor × Bool :=
  match patternVerdict search itc.url_pattern ev.url with
  | Except.error _ => (itc, true)
  | Except.ok false => (itc, false)
  | Except.ok true =>
    ({ itc with requests := itc.requests ++
        [{ request_id := fresh_id
           url := ev.url
           method := ev.method
           headers := ev.headers
           post_data := if ev.method == "POST" then ev.post_data else none
           timestamp := now
           response := none }] }, false)

/-- NetworkInterceptor.on_response (lines 59-84).  The outer try swallows
every exception (Boolean component true when it fired); the inner try around
body decoding stores a partial response on failure, handled without reaching
the outer except. -/
def NetworkInterceptor.on_response (search : String → String → Except PyError Bool)
    (itc : NetworkInterceptor) (ev : ResponseEvent)
    (bodyResult : Except PyError String) : NetworkInterceptor × Bool :=
  match patternVerdict search itc.url_pattern ev.url with
  | Except.error _ => (itc, true)
  | Except.ok false => (itc, false)
  | Except.ok true =>
    ({ itc with requests := fillFirst ev.url (mkResponseRecord ev bodyResult) itc.requests }, false)

/-- NetworkInterceptor.get_requests (lines 86-88): the list comprehension
keeps the records whose response entry is truthy; every stored response
dictionary is non-empty, so truthiness coincides with being non-None. -/
def NetworkInterceptor.get_requests (itc : NetworkInterceptor) : List RequestRecord :=
  itc.requests.filter (fun r => r.response.isSome)

/-- NetworkInterceptor.set_url_pattern (lines 31-33). -/
def NetworkInterceptor.set_url_pattern (itc : NetworkInterceptor) (p : String) :
    NetworkInterceptor :=
  { itc with url_pattern := some p }

/-- NetworkInterceptor.clear (lines 35-37). -/
def NetworkInterceptor.clear (itc : NetworkInterceptor) : NetworkInterceptor :=
  { itc with requests := [] }

/-- A handle on an external playwright resource (page, context, browser, or
the driver).  The close_ok field is the oracle for whether awaiting its
close (or stop) call succeeds. -/
structure Handle where
  close_ok : Bool
deriving Repr, DecidableEq

/-- BrowserSession state (fields assigned in __init__, lines 94-103, plus
the capability handles filled in by initialize). -/
structure BrowserSession where
  session_id : String
  browser : Option Handle
  context : Option Handle
  page : Option Handle
  playwright : Option Handle
  network_interceptor : NetworkInterceptor
  custom_headers : List (String × String)
  created_at : Nat
  last_activity : Nat
deriving Repr, DecidableEq

/-- A session as built by __init__ alone: every capability handle is None. -/
def BrowserSession.mk0 (id : String) (now : Nat) : BrowserSession :=
  { session_id := id
    browser := none
    context := none
    page := none
    playwright := none
    network_interceptor := { requests := [], url_pattern := none }
    custom_headers := []
    created_at := now
    last_activity := now }

/-- A session after a successful initialize: the four capability handles are
populated (the construction of the handles themselves is external). -/
def initializedSession (id : String) (now : Nat) : BrowserSession :=
  { BrowserSession.mk0 id now with
      browser := some { close_ok := true }
      context := some { close_ok := true }
      page := some { close_ok := true }
      playwright := some { close_ok := true } }

/-- Outcome of one BrowserSession operation: the Python return value or the
raised exception, the session state afterwards, and whether the capability
(the playwright object) was invoked at all. -/
structure OpOutcome (α : Type) where
  result : Except PyError α
  session : BrowserSession
  capability_called : Bool
deriving Repr

/-- The RuntimeError raised by every operation on an uninitialized session. -/
def uninitializedError : PyError := PyError.runtimeError "浏览器会话未初始化"

/-- BrowserSession.navigate (lines 204-215): page-None check, then goto; the
oracle capResult is the final page URL or the exception, which is logged and
re-raised. -/
def BrowserSession.navigate (s : BrowserSession) (url : String)
    (capResult : Except PyError String) (now : Nat) : OpOutcome String :=
  match s.page with
  | none => { result := Except.error uninitializedError, session := s, capability_called := false }
  | some _ =>
    match capResult with
    | Except.ok u => { result := Except.ok u, session := { s with last_activity := now }, capability_called := true }
    | Except.error e => { result := Except.error e, session := s, capability_called := true }

/-- BrowserSession.execute_script (lines 217-228); the evaluated value is
abstracted to a string. -/
def BrowserSession.execute_script (s : BrowserSession) (script : String)
    (capResult : Except PyError String) (now : Nat) : OpOutcome String :=
  match s.page with
  | none => { result := Except.error uninitializedError, session := s, capability_called := false }
  | some _ =>
    match capResult with
    | Except.ok v => { result := Except.ok v, session := { s with last_activity := now }, capability_called := true }
    | Except.error e => { result := Except.error e, session := s, capability_called := true }

/-- BrowserSession.get_content (lines 230-241). -/
def BrowserSession.get_content (s : BrowserSession)
    (capResult : Except PyError String) (now : Nat) : OpOutcome String :=
  match s.page with
  | none => { result := Except.error uninitializedError, session := s, capability_called := false }
  | some _ =>
    match capResult with
    | Except.ok v => { result := Except.ok v, session := { s with last_activity := now }, capability_called := true }
    | Except.error e => { result := Except.error e, session := s, capability_called := true }

/-- BrowserSession.wait_for_selector (lines 243-254): returns True on
success. -/
def BrowserSession.wait_for_selector (s : BrowserSession) (selector : String)
    (capResult : Except PyError Unit) (now : Nat) : OpOutcome Bool :=
  match s.page with
  | none => { result := Except.error uninitializedError, session := s, capability_called := false }
  | some _ =>
    match capResult with
    | Except.ok _ => { result := Except.ok true, session := { s with last_activity := now }, capability_called := true }
    | Except.error e => { result := Except.error e, session := s, capability_called := true }

/-- BrowserSession.click (lines 256-267). -/
def BrowserSession.click (s : BrowserSession) (selector : String)
    (capResult : Except PyError Unit) (now : Nat) : OpOutcome Bool :=
  match s.page with
  | none => { result := Except.error uninitializedError, session := s, capability_called := false }
  | some _ =>
    match capResult with
    | Except.ok _ => { result := Except.ok true, session := { s with last_activity := now }, capability_called := true }
    | Except.error e => { result := Except.error e, session := s, capability_called := true }

/-- BrowserSession.type_text (lines 269-280). -/
def BrowserSession.type_text (s : BrowserSession) (selector : String) (text : String)
    (capResult : Except PyError Unit) (now : Nat) : OpOutcome Bool :=
  match s.page with
  | none => { result := Except.error uninitializedError, session := s, capability_called := false }
  | some _ =>
    match capResult with
    | Except.ok _ => { result := Except.ok true, session := { s with last_activity := now }, capability_called := true }
    | Except.error e => { result := Except.error e, session := s, capability_called := true }

/-- BrowserSession.screenshot (lines 282-301): with a selector, query the
element first (oracle queryResult) and raise ValueError when absent;
otherwise screenshot the page.  Screenshot bytes are abstracted to a
string. -/
def BrowserSession.screenshot (s : BrowserSession) (selector : Option String)
    (queryResult : Except PyError (Option Handle))
    (shotResult : Except PyError String) (now : Nat) : OpOutcome String :=
  match s.page with
  | none => { result := Except.error uninitializedError, session := s, capability_called := false }
  | some _ =>
    match selector with
    | some sel =>
      match queryResult with
      | Except.error e => { result := Except.error e, session := s, capability_called := true }
      | Except.ok none =>
        { result := Except.error (PyError.valueError ("未找到元素: " ++ sel)), session := s, capability_called := true }
      | Except.ok (some _) =>
        match shotResult with
        | Except.ok b => { result := Except.ok b, session := { s with last_activity := now }, capability_called := true }
        | Except.error e => { result := Except.error e, session := s, capability_called := true }
    | none =>
      match shotResult with
      | Except.ok b => { result := Except.ok b, session := { s with last_activity := now }, capability_called := true }
      | Except.error e => { result := Except.error e, session := s, capability_called := true }

/-- Python dict.update(base, upd) viewed as an association list with unique
keys: values of existing keys are replaced in place, new keys are appended
in order. -/
def dictUpdate (base upd : List (String × String)) : List (String × String) :=
  base.map (fun kv => (kv.1,
      (((upd.find? (fun kv2 => kv2.1 == kv.1))).map Prod.snd).getD kv.2)) ++
    upd.filter (fun kv2 => !(base.any (fun kv => kv.1 == kv2.1)))

/-- Key lookup in an association list (first occurrence). -/
def lookupD (l : List (String × String)) (k : String) : Option String :=
  match l with
  | [] => none
  | kv :: rest => if kv.1 == k then some kv.2 else lookupD rest k

/-- BrowserSession.set_extra_headers (lines 303-314): context-None check,
then self.custom_headers.update(headers) followed by applying the whole
accumulated mapping to the context.  The dictionary update happens before
the awaited capability call, so it persists even when that call raises.  On
success the mapping handed to set_extra_http_headers is exactly the updated
custom_headers of the resulting session. -/
def BrowserSession.set_extra_headers (s : BrowserSession)
    (headers : List (String × String)) (capResult : Except PyError Unit)
    (now : Nat) : OpOutcome Unit :=
  match s.context with
  | none => { result := Except.error uninitializedError, session := s, capability_called := false }
  | some _ =>
    let s1 := { s with custom_headers := dictUpdate s.custom_headers headers }
    match capResult with
    | Except.ok _ => { result := Except.ok (), session := { s1 with last_activity := now }, capability_called := true }
    | Except.error e => { result := Except.error e, session := s1, capability_called := true }

/-- A cookie as passed to or returned by the context, abstracted to its
name and value. -/
structure Cookie where
  name : String
  value : String
deriving Repr, DecidableEq

/-- BrowserSession.set_cookies (lines 316-326). -/
def BrowserSession.set_cookies (s : BrowserSession) (cookies : List Cookie)
    (capResult : Except PyError Unit) (now : Nat) : OpOutcome Unit :=
  match s.context with
  | none => { result := Except.error uninitializedError, session := s, capability_called := false }
  | some _ =>
    match capResult with
    | Except.ok _ => { result := Except.ok (), session := { s with last_activity := now }, capability_called := true }
    | Except.error e => { result := Except.error e, session := s, capability_called := true }

/-- BrowserSession.get_cookies (lines 328-342). -/
def BrowserSession.get_cookies (s : BrowserSession) (url : Option String)
    (capResult : Except PyError (List Cookie)) (now : Nat) : OpOutcome (List Cookie) :=
  match s.context with
  | none => { result := Except.error uninitializedError, session := s, capability_called := false }
  | some _ =>
    match capResult with
    | Except.ok v => { result := Except.ok v, session := { s with last_activity := now }, capability_called := true }
    | Except.error e => { result := Except.error e, session := s, capability_called := true }

/-- Lines 357-359 of close: if self.page, await page.close() (which may
raise, leaving the handle set), then self.page = None. -/
def closePage (s : BrowserSession) : Except BrowserSession BrowserSession :=
  match s.page with
  | some h => if h.close_ok then Except.ok { s with page := none } else Except.error s
  | none => Except.ok s

/-- Lines 361-363 of close: the context release step. -/
def closeContext (s : BrowserSession) : Except BrowserSession BrowserSession :=
  match s.context with
  | some h => if h.close_ok then Except.ok { s with context := none } else Except.error s
  | none => Except.ok s

/-- Lines 365-367 of close: the browser release step. -/
def closeBrowser (s : BrowserSession) : Except BrowserSession BrowserSession :=
  match s.browser with
  | some h => if h.close_ok then Except.ok { s with browser := none } else Except.error s
  | none => Except.ok s

/-- Lines 369-371 of close: the playwright driver stop step. -/
def closePlaywright (s : BrowserSession) : Except BrowserSession BrowserSession :=
  match s.playwright with
  | some h => if h.close_ok then Except.ok { s with playwright := none } else Except.error s
  | none => Except.ok s

/-- Sequencing of two statements inside one try block: a raised exception
skips the rest. -/
def seqClose (r : Except BrowserSession BrowserSession)
    (f : BrowserSession → Except BrowserSession BrowserSession) :
    Except BrowserSession BrowserSession :=
  match r with
  | Except.error e => Except.error e
  | Except.ok s1 => f s1

/-- The try body of BrowserSession.close (lines 356-371): the four release
steps run sequentially inside ONE try block; a step whose close call raises
throws to the except clause carrying the state reached so far (in
particular its own handle is not cleared, because the None assignment
follows the await), and the remaining steps are not executed. -/
def closeBody (s : BrowserSession) : Except BrowserSession BrowserSession :=
  seqClose (seqClose (seqClose (closePage s) closeContext) closeBrowser) closePlaywright

/-- The except clause of close (lines 374-375): the exception is logged and
swallowed, so close always returns normally. -/
def finishClose (r : Except BrowserSession BrowserSession) : BrowserSession × Bool :=
  match r with
  | Except.ok s2 => (s2, false)
  | Except.error s2 => (s2, true)

/-- BrowserSession.close (lines 354-375): the Boolean records whether an
exception was caught by the except clause. -/
def BrowserSession.close (s : BrowserSession) : BrowserSession × Bool :=
  finishClose (closeBody s)

/-- BrowserPool state (fields of __init__, lines 381-385).  The locked flag
is the state of the asyncio.Lock. -/
structure BrowserPool where
  sessions : List (String × BrowserSession)
  max_sessions : Nat
  session_timeout : Nat
  locked : Bool
deriving Repr, DecidableEq

/-- A fresh pool. -/
def mkPool (maxSessions sessionTimeout : Nat) : BrowserPool :=
  { sessions := [], max_sessions := maxSessions, session_timeout := sessionTimeout, locked := false }

/-- Outcome of a pool operation: normal return, raised exception, or the
calling task blocked forever awaiting the pool lock (each constructor
carries the pool state at that point). -/
inductive PoolResult (α : Type) where
  | ok (v : α) (p : BrowserPool)
  | error (e : PyError) (p : BrowserPool)
  | blocked (p : BrowserPool)
deriving Repr

/-- The pool state carried by a PoolResult. -/
def PoolResult.state {α : Type} : PoolResult α → BrowserPool
  | PoolResult.ok _ p => p
  | PoolResult.error _ p => p
  | PoolResult.blocked p => p

/-- Whether the operation blocked. -/
def PoolResult.isBlocked {α : Type} : PoolResult α → Bool
  | PoolResult.blocked _ => true
  | _ => false

/-- Dictionary lookup in the session mapping. -/
def lookupSession (l : List (String × BrowserSession)) (k : String) :
    Option BrowserSession :=
  match l with
  | [] => none
  | kv :: rest => if kv.1 == k then some kv.2 else lookupSession rest k

/-- Removal of a key from the session mapping (dict.pop removes the single
entry of that key). -/
def eraseKey (l : List (String × BrowserSession)) (k : String) :
    List (String × BrowserSession) :=
  match l with
  | [] => []
  | kv :: rest => if kv.1 == k then rest else kv :: eraseKey rest k

/-- BrowserPool.close_session (lines 422-430): async with the pool lock —
an acquire while the lock is already held by this task never completes
(asyncio.Lock is not reentrant), reported as blocked.  Otherwise pop the
id; when present the removed session is closed (its close never raises)
and True is returned, else False. -/
def BrowserPool.close_session (p : BrowserPool) (id : String) : PoolResult Bool :=
  if p.locked then
    PoolResult.blocked p
  else
    match lookupSession p.sessions id with
    | some _ => PoolResult.ok true { p with sessions := eraseKey p.sessions id }
    | none => PoolResult.ok false p

/-- The second for-loop of _cleanup_expired_sessions (lines 441-443):
await close_session for each expired id in turn. -/
def cleanupLoop (p : BrowserPool) : List String → PoolResult Unit
  | [] => PoolResult.ok () p
  | id :: rest =>
    match p.close_session id with
    | PoolResult.blocked p2 => PoolResult.blocked p2
    | PoolResult.error e p2 => PoolResult.error e p2
    | PoolResult.ok _ p2 => cleanupLoop p2 rest

/-- BrowserPool._cleanup_expired_sessions (lines 432-443): collect the ids
whose inactivity exceeds the timeout, then close each via close_session —
which re-acquires the pool lock. -/
def BrowserPool.cleanup_expired (p : BrowserPool) (now : Nat) : PoolResult Unit :=
  cleanupLoop p
    ((p.sessions.filter (fun kv => now - kv.2.last_activity > p.session_timeout)).map Prod.fst)

/-- The PoolExhausted error raised at line 402. -/
def poolExhaustedError (maxSessions : Nat) : PyError :=
  PyError.runtimeError ("会话数量已达上限: " ++ toString maxSessions)

/-- The part of create_session after the expiry sweep (lines 400-416):
check the capacity bound (raising PoolExhausted at capacity), then
construct and initialize a fresh session — initErr none models a
successful initialize, some e the exception it raised, which is re-raised
after closing the partial session; only on success is the id registered.
All exit paths leave the async with block, releasing the lock. -/
def afterCleanup (fresh_id : String) (initErr : Option PyError) (now : Nat)
    (r : PoolResult Unit) : PoolResult String :=
  match r with
  | PoolResult.blocked p2 => PoolResult.blocked p2
  | PoolResult.error e p2 => PoolResult.error e { p2 with locked := false }
  | PoolResult.ok _ p2 =>
    if p2.sessions.length ≥ p2.max_sessions then
      PoolResult.error (poolExhaustedError p2.max_sessions) { p2 with locked := false }
    else
      match initErr with
      | none =>
        PoolResult.ok fresh_id
          { p2 with
              sessions := p2.sessions ++ [(fresh_id, initializedSession fresh_id now)],
              locked := false }
      | some e => PoolResult.error e { p2 with locked := false }

/-- BrowserPool.create_session (lines 387-416): acquire the pool lock
(blocking forever if it is already held), run the expiry sweep, then
proceed with the capacity check and session construction. -/
def BrowserPool.create_session (p : BrowserPool) (now : Nat) (fresh_id : String)
    (initErr : Option PyError) : PoolResult String :=
  if p.locked then
    PoolResult.blocked p
  else
    afterCleanup fresh_id initErr now
      (({ p with locked := true } : BrowserPool).cleanup_expired now)

/-- BrowserPool.get_session (lines 418-420): pure lookup, no lock. -/
def BrowserPool.get_session (p : BrowserPool) (id : String) : Option BrowserSession :=
  lookupSession p.sessions id

/-- One pool mutation issued by a caller: the operations of a trace are the
createSession and closeSession calls, each with its external inputs. -/
inductive PoolOp where
  | create (now : Nat) (fresh_id : String) (initErr : Option PyError)
  | close (id : String)
deriving Repr

/-- The pool state after one operation (the state carried by its result). -/
def applyOp (p : BrowserPool) : PoolOp → BrowserPool
  | PoolOp.create now fid initErr => (p.create_session now fid initErr).state
  | PoolOp.close id => (p.close_session id).state

/-- The pool state after a sequence of operations. -/
def runOps (p : BrowserPool) (ops : List PoolOp) : BrowserPool :=
  ops.foldl applyOp p

/-- Number of stored request records whose response slot is populated. -/
def filledCount (l : List RequestRecord) : Nat :=
  (l.filter (fun r => r.response.isSome)).length

/-- Whether every close call of an optional handle would succeed (holds
vacuously for an absent handle). -/
def closesOk (o : Option Handle) : Prop :=
  ∀ h, o = some h → h.close_ok = true

/- Concrete instances used by witness and counterexample theorems. -/

/-- An oracle for re.search that always reports a match. -/
def search0 : String → String → Except PyError Bool := fun _ _ => Except.ok true

/-- An oracle for re.search that raises, as re.search does on a
syntactically invalid pattern such as a lone opening parenthesis. -/
def badSearch : String → String → Except PyError Bool :=
  fun _ _ => Except.error (PyError.otherError "re.error: missing closing parenthesis")

/-- A fresh interceptor with no filter. -/
def itcEmpty : NetworkInterceptor := { requests := [], url_pattern := none }

/-- An interceptor whose filter pattern is an invalid regular expression. -/
def itcBadPattern : NetworkInterceptor := { requests := [], url_pattern := some "(" }

/-- A GET request event. -/
def evGet1 : RequestEvent :=
  { url := "http://api.example/a", method := "GET", headers := [], post_data := none }

/-- A PUT request event that carries a body. -/
def evPut : RequestEvent :=
  { url := "http://api.example/u", method := "PUT",
    headers := [("content-type", "text/plain")], post_data := some "payload" }

/-- A POST request event that carries a body. -/
def evPost : RequestEvent :=
  { url := "http://api.example/p", method := "POST", headers := [], post_data := some "data" }

/-- A pending request record to a given URL, id a. -/
def reqA (u : String) : RequestRecord :=
  { request_id := "a", url := u, method := "GET", headers := [], post_data := none,
    timestamp := 1, response := none }

/-- A pending request record to a given URL, id b, observed later. -/
def reqB (u : String) : RequestRecord :=
  { request_id := "b", url := u, method := "GET", headers := [], post_data := none,
    timestamp := 2, response := none }

/-- First response event to the duplicated URL. -/
def respEv1 : ResponseEvent :=
  { url := "http://x/dup", status := 200, headers := [("h", "1")] }

/-- Second response event to the duplicated URL. -/
def respEv2 : ResponseEvent :=
  { url := "http://x/dup", status := 404, headers := [] }

/-- An interceptor holding two pending records for the same URL. -/
def itcDup : NetworkInterceptor :=
  { requests := [reqA "http://x/dup", reqB "http://x/dup"], url_pattern := none }

/-- A record whose response slot is populated. -/
def recFilled : RequestRecord :=
  { request_id := "f", url := "http://y/1", method := "GET", headers := [],
    post_data := none, timestamp := 1,
    response := some { status_code := 200, headers := [], body := some "ok" } }

/-- A record still awaiting its response. -/
def recPending : RequestRecord :=
  { request_id := "g", url := "http://y/2", method := "GET", headers := [],
    post_data := none, timestamp := 2, response := none }

/-- An interceptor holding one matched and one pending record. -/
def itcMixed : NetworkInterceptor :=
  { requests := [recFilled, recPending], url_pattern := none }

/-- A session that was constructed but never initialized. -/
def uninitS : BrowserSession := BrowserSession.mk0 "w6" 0

/-- An initialized session whose page handle fails to close while the
remaining handles would close successfully. -/
def sessionC8 : BrowserSession :=
  { BrowserSession.mk0 "c8" 0 with
      page := some { close_ok := false }
      context := some { close_ok := true }
      browser := some { close_ok := true }
      playwright := some { close_ok := true } }

/-- A pool of capacity 1 holding a single session that is expired at time
100 (timeout 10, last activity 0). -/
def expiredPool : BrowserPool :=
  { sessions := [("old", initializedSession "old" 0)], max_sessions := 1,
    session_timeout := 10, locked := false }

/-- A pool of capacity 1 that is at capacity with a non-expired session. -/
def fullPool : BrowserPool :=
  { sessions := [("a", initializedSession "a" 5)], max_sessions := 1,
    session_timeout := 100, locked := false }

/-- A pool holding two live sessions, used to exercise closeSession. -/
def poolC5 : BrowserPool :=
  { sessions := [("s1", initializedSession "s1" 0), ("s2", initializedSession "s2" 0)],
    max_sessions := 5, session_timeout := 100, locked := false }

/-- An initialized session used to exercise header accumulation. -/
def headerSession : BrowserSession := initializedSession "h7" 0

/- Helper lemmas about association-list lookup and dictionary update. -/

theorem optOr_none_right {α : Type} (x : Option α) : optOr x none = x := by
  cases x <;> rfl

theorem lookupD_append (l1 l2 : List (String × String)) (k : String) :
    lookupD (l1 ++ l2) k = optOr (lookupD l1 k) (lookupD l2 k) := by
  induction l1 with
  | nil => simp [lookupD, optOr]
  | cons kv rest ih =>
    cases h : kv.1 == k <;> simp [lookupD, h, optOr, ih]

theorem find?_map_snd_eq_lookupD (l : List (String × String)) (x : String) :
    ((l.find? (fun kv2 => kv2.1 == x)).map Prod.snd) = lookupD l x := by
  induction l with
  | nil => simp [lookupD]
  | cons kv rest ih =>
    cases h : kv.1 == x <;> simp [List.find?, lookupD, h, ih]

theorem lookupD_map_update (base upd : List (String × String)) (k : String) :
    lookupD (base.map (fun kv => (kv.1,
        (((upd.find? (fun kv2 => kv2.1 == kv.1))).map Prod.snd).getD kv.2))) k
      = match lookupD base k with
        | none => none
        | some v => some ((lookupD upd k).getD v) := by
  induction base with
  | nil => simp [lookupD]
  | cons kv rest ih =>
    cases h : kv.1 == k
    · simp only [List.map_cons, lookupD, h, Bool.false_eq_true, if_false]
      exact ih
    · have hk : kv.1 = k := eq_of_beq h
      simp [lookupD, h, find?_map_snd_eq_lookupD, hk]

theorem any_key_lookupD (base : List (String × String)) (x : String)
    (h : base.any (fun kv => kv.1 == x) = true) : lookupD base x ≠ none := by
  induction base with
  | nil => simp at h
  | cons kv rest ih =>
    simp only [List.any_cons, Bool.or_eq_true] at h
    cases hc : kv.1 == x
    · simp only [lookupD, hc, Bool.false_eq_true, if_false]
      apply ih
      rcases h with h | h
      · rw [hc] at h; exact absurd h (by simp)
      · exact h
    · simp [lookupD, hc]

theorem lookupD_filter_new (base upd : List (String × String)) (k : String)
    (h : lookupD base k = none) :
    lookupD (upd.filter (fun kv2 => !(base.any (fun kv => kv.1 == kv2.1)))) k
      = lookupD upd k := by
  induction upd with
  | nil => simp
  | cons u us ih =>
    cases hb : base.any (fun kv => kv.1 == u.1)
    · simp [List.filter_cons, hb, lookupD, ih]
    · have hne : (u.1 == k) = false := by
        cases hc : u.1 == k
        · rfl
        · exact absurd ((eq_of_beq hc) ▸ h) (any_key_lookupD base u.1 hb)
      simp [List.filter_cons, hb, lookupD, hne, ih]

theorem lookupD_dictUpdate (base upd : List (String × String)) (k : String) :
    lookupD (dictUpdate base upd) k = optOr (lookupD upd k) (lookupD base k) := by
  unfold dictUpdate
  rw [lookupD_append, lookupD_map_update]
  cases hb : lookupD base k with
  | none =>
    rw [lookupD_filter_new base upd k hb]
    cases lookupD upd k <;> simp [optOr]
  | some v =>
    cases lookupD upd k <;> simp [optOr, Option.getD]

/- Helper lemmas about the interceptor fill loop. -/

theorem fillFirst_skip (u : String) (resp : ResponseRecord)
    (P rest : List RequestRecord)
    (hP : ∀ r ∈ P, r.url = u → r.response ≠ none) :
    fillFirst u resp (P ++ rest) = P ++ fillFirst u resp rest := by
  induction P with
  | nil => simp
  | cons q P ih =>
    have hq : (q.url == u && q.response.isNone) = false := by
      cases hqu : q.url == u
      · simp
      · rcases hq2 : q.response with _ | v
        · exact absurd hq2 (hP q (List.mem_cons_self q P) (eq_of_beq hqu))
        · simp [hq2]
    simp [fillFirst, hq, ih (fun r hr hu2 => hP r (List.mem_cons_of_mem q hr) hu2)]

theorem fillFirst_hit (u : String) (resp : ResponseRecord) (r : RequestRecord)
    (rest : List RequestRecord) (hru : r.url = u) (hrn : r.response = none) :
    fillFirst u resp (r :: rest) = { r with response := some resp } :: rest := by
  have hg : (r.url == u && r.response.isNone) = true := by simp [hru, hrn]
  simp [fillFirst, hg]

theorem filledCount_cons (r : RequestRecord) (l : List RequestRecord) :
    filledCount (r :: l)
      = (if r.response.isSome then 1 else 0) + filledCount l := by
  cases h : r.response.isSome <;> simp [filledCount, List.filter_cons, h, Nat.add_comm]

theorem filledCount_fillFirst (u : String) (resp : ResponseRecord)
    (l : List RequestRecord) :
    filledCount (fillFirst u resp l) ≤ filledCount l + 1 := by
  induction l with
  | nil => simp [fillFirst, filledCount]
  | cons r rest ih =>
    cases hg : (r.url == u && r.response.isNone)
    · simp only [fillFirst, hg, Bool.false_eq_true, if_false]
      rw [filledCount_cons, filledCount_cons]
      omega
    · simp only [fillFirst, hg, if_true]
      rw [filledCount_cons, filledCount_cons]
      have hn : r.response = none := by
        rcases hr : r.response with _ | v
        · rfl
        · rw [hr] at hg; simp at hg
      simp [hn]
      omega

/-- Single-step behavior of on_response when the pattern admits the URL and
the store splits as a no-match region P, the first matching record r, and a
tail: exactly r is filled and the flag reports no swallowed exception. -/
theorem on_response_fill (search : String → String → Except PyError Bool)
    (itc : NetworkInterceptor) (ev : ResponseEvent) (b : Except PyError String)
    (P rest : List RequestRecord) (r : RequestRecord)
    (hpat : patternVerdict search itc.url_pattern ev.url = Except.ok true)
    (hreq : itc.requests = P ++ r :: rest)
    (hP : ∀ x ∈ P, x.url = ev.url → x.response ≠ none)
    (hru : r.url = ev.url) (hrn : r.response = none) :
    NetworkInterceptor.on_response search itc ev b
      = ({ itc with
            requests := P ++ { r with response := some (mkResponseRecord ev b) } :: rest },
         false) := by
  unfold NetworkInterceptor.on_response
  rw [hpat]
  simp only []
  rw [hreq, fillFirst_skip ev.url _ P _ hP, fillFirst_hit ev.url _ r _ hru hrn]

/- Helper lemmas about the session close steps. -/

theorem closePage_ok (s : BrowserSession) (hOk : closesOk s.page) :
    closePage s = Except.ok { s with page := none } := by
  obtain ⟨sid, br, cx, pg, pw, ni, chd, ca, la⟩ := s
  cases pg with
  | none => rfl
  | some h =>
    have hh : h.close_ok = true := hOk h rfl
    simp [closePage, hh]

theorem closeContext_ok (s : BrowserSession) (hOk : closesOk s.context) :
    closeContext s = Except.ok { s with context := none } := by
  obtain ⟨sid, br, cx, pg, pw, ni, chd, ca, la⟩ := s
  cases cx with
  | none => rfl
  | some h =>
    have hh : h.close_ok = true := hOk h rfl
    simp [closeContext, hh]

theorem closeBrowser_ok (s : BrowserSession) (hOk : closesOk s.browser) :
    closeBrowser s = Except.ok { s with browser := none } := by
  obtain ⟨sid, br, cx, pg, pw, ni, chd, ca, la⟩ := s
  cases br with
  | none => rfl
  | some h =>
    have hh : h.close_ok = true := hOk h rfl
    simp [closeBrowser, hh]

theorem closePlaywright_ok (s : BrowserSession) (hOk : closesOk s.playwright) :
    closePlaywright s = Except.ok { s with playwright := none } := by
  obtain ⟨sid, br, cx, pg, pw, ni, chd, ca, la⟩ := s
  cases pw with
  | none => rfl
  | some h =>
    have hh : h.close_ok = true := hOk h rfl
    simp [closePlaywright, hh]

theorem seqClose_ok (s : BrowserSession)
    (f : BrowserSession → Except BrowserSession BrowserSession) :
    seqClose (Except.ok s) f = f s := rfl

theorem seqClose_error (e : BrowserSession)
    (f : BrowserSession → Except BrowserSession BrowserSession) :
    seqClose (Except.error e) f = Except.error e := rfl

theorem closePage_fail (s : BrowserSession) (h : Handle)
    (hp : s.page = some h) (hcf : h.close_ok = false) :
    closePage s = Except.error s := by
  unfold closePage
  rw [hp]
  simp [hcf]

theorem closeContext_fail (s : BrowserSession) (h : Handle)
    (hc : s.context = some h) (hcf : h.close_ok = false) :
    closeContext s = Except.error s := by
  unfold closeContext
  rw [hc]
  simp [hcf]

theorem closeBrowser_fail (s : BrowserSession) (h : Handle)
    (hb : s.browser = some h) (hcf : h.close_ok = false) :
    closeBrowser s = Except.error s := by
  unfold closeBrowser
  rw [hb]
  simp [hcf]

theorem closePlaywright_fail (s : BrowserSession) (h : Handle)
    (hw : s.playwright = some h) (hcf : h.close_ok = false) :
    closePlaywright s = Except.error s := by
  unfold closePlaywright
  rw [hw]
  simp [hcf]

/- Helper lemmas about the pool. -/

theorem eraseKey_length_le (l : List (String × BrowserSession)) (k : String) :
    (eraseKey l k).length ≤ l.length := by
  induction l with
  | nil => simp [eraseKey]
  | cons kv rest ih =>
    cases h : kv.1 == k
    · simp only [eraseKey, h, Bool.false_eq_true, if_false, List.length_cons]
      omega
    · simp only [eraseKey, h, if_true, List.length_cons]
      omega

theorem lookup_not_mem (l : List (String × BrowserSession)) (k : String)
    (h : k ∉ l.map Prod.fst) : lookupSession l k = none := by
  induction l with
  | nil => rfl
  | cons kv rest ih =>
    simp only [List.map_cons, List.mem_cons, not_or] at h
    have hc : (kv.1 == k) = false := by
      cases hc2 : kv.1 == k
      · rfl
      · exact absurd (eq_of_beq hc2).symm h.1
    simp [lookupSession, hc, ih h.2]

theorem lookup_eraseKey_self (l : List (String × BrowserSession)) (k : String)
    (hnd : (l.map Prod.fst).Nodup) : lookupSession (eraseKey l k) k = none := by
  induction l with
  | nil => rfl
  | cons kv rest ih =>
    rw [List.map_cons, List.nodup_cons] at hnd
    cases hc : kv.1 == k
    · simp only [eraseKey, hc, Bool.false_eq_true, if_false]
      simp [lookupSession, hc, ih hnd.2]
    · simp only [eraseKey, hc, if_true]
      exact lookup_not_mem rest k ((eq_of_beq hc) ▸ hnd.1)

theorem close_session_state (p : BrowserPool) (id : String) :
    (p.close_session id).state.sessions.length ≤ p.sessions.length
    ∧ (p.close_session id).state.max_sessions = p.max_sessions
    ∧ (p.close_session id).state.session_timeout = p.session_timeout := by
  unfold BrowserPool.close_session
  cases hl : p.locked
  · cases hf : lookupSession p.sessions id <;>
      simp [PoolResult.state, eraseKey_length_le]
  · simp [PoolResult.state]

theorem cleanupLoop_state (ids : List String) (p : BrowserPool) :
    (cleanupLoop p ids).state.sessions.length ≤ p.sessions.length
    ∧ (cleanupLoop p ids).state.max_sessions = p.max_sessions
    ∧ (cleanupLoop p ids).state.session_timeout = p.session_timeout := by
  induction ids generalizing p with
  | nil => simp [cleanupLoop, PoolResult.state]
  | cons id rest ih =>
    have hc := close_session_state p id
    unfold cleanupLoop
    cases hr : p.close_session id with
    | ok v p2 =>
      rw [hr] at hc
      simp only [PoolResult.state] at hc
      have h2 := ih p2
      exact ⟨le_trans h2.1 hc.1, by rw [h2.2.1, hc.2.1], by rw [h2.2.2, hc.2.2]⟩
    | error e p2 =>
      rw [hr] at hc
      simpa [PoolResult.state] using hc
    | blocked p2 =>
      rw [hr] at hc
      simpa [PoolResult.state] using hc

theorem cleanup_expired_state (p : BrowserPool) (now : Nat) :
    (p.cleanup_expired now).state.sessions.length ≤ p.sessions.length
    ∧ (p.cleanup_expired now).state.max_sessions = p.max_sessions
    ∧ (p.cleanup_expired now).state.session_timeout = p.session_timeout :=
  cleanupLoop_state _ p

theorem applyOp_state (p : BrowserPool) (op : PoolOp) :
    (applyOp p op).max_sessions = p.max_sessions
    ∧ (p.sessions.length ≤ p.max_sessions →
        (applyOp p op).sessions.length ≤ p.max_sessions) := by
  cases op with
  | close id =>
    have hc := close_session_state p id
    exact ⟨hc.2.1, fun h => le_trans hc.1 h⟩
  | create now fid ie =>
    unfold applyOp BrowserPool.create_session afterCleanup
    cases hl : p.locked
    · simp only [Bool.false_eq_true, if_false]
      have hcl := cleanup_expired_state ({ p with locked := true }) now
      cases hr : ({ p with locked := true } : BrowserPool).cleanup_expired now with
      | ok v p2 =>
        rw [hr] at hcl
        simp only [PoolResult.state] at hcl
        by_cases hcap : p2.sessions.length ≥ p2.max_sessions
        · simp only [hcap, if_true, PoolResult.state]
          exact ⟨hcl.2.1, fun h => le_trans hcl.1 h⟩
        · simp only [hcap, if_false]
          cases ie with
          | none =>
            simp only [PoolResult.state]
            refine ⟨hcl.2.1, fun h => ?_⟩
            have : p2.sessions.length < p2.max_sessions := Nat.lt_of_not_le hcap
            rw [List.length_append]
            simp only [List.length_cons, List.length_nil]
            rw [hcl.2.1] at this
            omega
          | some e =>
            simp only [PoolResult.state]
            exact ⟨hcl.2.1, fun h => le_trans hcl.1 h⟩
      | error e p2 =>
        rw [hr] at hcl
        simp only [PoolResult.state] at hcl ⊢
        exact ⟨hcl.2.1, fun h => le_trans hcl.1 h⟩
      | blocked p2 =>
        rw [hr] at hcl
        simp only [PoolResult.state] at hcl ⊢
        exact ⟨hcl.2.1, fun h => le_trans hcl.1 h⟩
    · simp [hl, PoolResult.state]

theorem runOps_cons (p : BrowserPool) (op : PoolOp) (ops : List PoolOp) :
    runOps p (op :: ops) = runOps (applyOp p op) ops := rfl

theorem runOps_invariant (ops : List PoolOp) (p : BrowserPool)
    (h : p.sessions.length ≤ p.max_sessions) :
    (runOps p ops).sessions.length ≤ (runOps p ops).max_sessions := by
  induction ops generalizing p with
  | nil => simpa [runOps] using h
  | cons op rest ih =>
    have ha := applyOp_state p op
    have h2 : (applyOp p op).sessions.length ≤ (applyOp p op).max_sessions := by
      rw [ha.1]; exact ha.2 h
    rw [runOps_cons]
    exact ih (applyOp p op) h2

theorem runOps_max (ops : List PoolOp) (p : BrowserPool) :
    (runOps p ops).max_sessions = p.max_sessions := by
  induction ops generalizing p with
  | nil => rfl
  | cons op rest ih =>
    rw [runOps_cons, ih (applyOp p op), (applyOp_state p op).1]

/-- Claim C3: in every interceptor state whose first two unmatched records
for a URL are r1 (earlier) and r2 (later), observing two responses to that
URL fills r1 with the first response and r2 with the second (FIFO matching
per URL), and every observeResponse call fills at most one record. -/
theorem claim_C3 (search : String → String → Except PyError Bool)
    (itc : NetworkInterceptor) (u : String) (ev1 ev2 : ResponseEvent)
    (b1 b2 : Except PyError String) (P M Q : List RequestRecord)
    (r1 r2 : RequestRecord)
    (hu1 : ev1.url = u) (hu2 : ev2.url = u)
    (hpat : patternVerdict search itc.url_pattern u = Except.ok true)
    (hreq : itc.requests = P ++ r1 :: (M ++ r2 :: Q))
    (hr1u : r1.url = u) (hr1n : r1.response = none)
    (hr2u : r2.url = u) (hr2n : r2.response = none)
    (hP : ∀ r ∈ P, r.url = u → r.response ≠ none)
    (hM : ∀ r ∈ M, r.url = u → r.response ≠ none) :
    (NetworkInterceptor.on_response search itc ev1 b1).1.requests
      = P ++ { r1 with response := some (mkResponseRecord ev1 b1) } :: (M ++ r2 :: Q)
    ∧ (NetworkInterceptor.on_response search
        (NetworkInterceptor.on_response search itc ev1 b1).1 ev2 b2).1.requests
      = P ++ { r1 with response := some (mkResponseRecord ev1 b1) }
          :: (M ++ { r2 with response := some (mkResponseRecord ev2 b2) } :: Q)
    ∧ (∀ (itcA : NetworkInterceptor) (evA : ResponseEvent) (bA : Except PyError String),
        filledCount ((NetworkInterceptor.on_response search itcA evA bA).1.requests)
          ≤ filledCount itcA.requests + 1) := by
  subst hu1
  have step1 : NetworkInterceptor.on_response search itc ev1 b1
      = ({ itc with
            requests := P ++
              { r1 with response := some (mkResponseRecord ev1 b1) } :: (M ++ r2 :: Q) },
         false) :=
    on_response_fill search itc ev1 b1 P (M ++ r2 :: Q) r1 hpat hreq hP hr1u hr1n
  have hP2 : ∀ x ∈ P ++ { r1 with response := some (mkResponseRecord ev1 b1) } :: M,
      x.url = ev2.url → x.response ≠ none := by
    intro x hx hxu
    rcases List.mem_append.mp hx with h | h
    · exact hP x h (hxu.trans hu2)
    · rcases List.mem_cons.mp h with h | h
      · rw [h]; simp
      · exact hM x h (hxu.trans hu2)
  have step2 : NetworkInterceptor.on_response search
      ({ itc with
          requests := P ++
            { r1 with response := some (mkResponseRecord ev1 b1) } :: (M ++ r2 :: Q) }) ev2 b2
      = ({ itc with
            requests := (P ++ { r1 with response := some (mkResponseRecord ev1 b1) } :: M) ++
              { r2 with response := some (mkResponseRecord ev2 b2) } :: Q },
         false) := by
    apply on_response_fill
    · show patternVerdict search itc.url_pattern ev2.url = Except.ok true
      rw [hu2]; exact hpat
    · show P ++ { r1 with response := some (mkResponseRecord ev1 b1) } :: (M ++ r2 :: Q)
        = (P ++ { r1 with response := some (mkResponseRecord ev1 b1) } :: M) ++ r2 :: Q
      simp
    · exact hP2
    · exact hr2u.trans hu2.symm
    · exact hr2n
  refine ⟨by rw [step1], ?_, ?_⟩
  · rw [step1, step2]
    simp
  · intro itcA evA bA
    unfold NetworkInterceptor.on_response
    cases hv : patternVerdict search itcA.url_pattern evA.url with
    | error e => simp only []; exact Nat.le_succ _
    | ok b =>
      cases b
      · simp only []; exact Nat.le_succ _
      · simp only []
        exact filledCount_fillFirst _ _ _

/-- Witness for C3 at a concrete state: two pending records to the same
URL; after two responses the earlier record holds the first response and
the later record holds the second. -/
theorem claim_C3_witness :
    (NetworkInterceptor.on_response search0
      (NetworkInterceptor.on_response search0 itcDup respEv1 (Except.ok "one")).1
      respEv2 (Except.ok "two")).1.requests
    = [{ reqA "http://x/dup" with response := some (mkResponseRecord respEv1 (Except.ok "one")) },
       { reqB "http://x/dup" with response := some (mkResponseRecord respEv2 (Except.ok "two")) }] := by
  have H := claim_C3 search0 itcDup "http://x/dup" respEv1 respEv2
    (Except.ok "one") (Except.ok "two") [] [] [] (reqA "http://x/dup") (reqB "http://x/dup")
    rfl rfl rfl rfl rfl rfl rfl rfl (by simp) (by simp)
  simpa using H.2.1

/-- Claim C4: getRequests returns exactly the stored records whose response
slot is populated (never one with an empty slot), as a subsequence of the
store, hence in original insertion order. -/
theorem claim_C4 (itc : NetworkInterceptor) :
    (∀ r ∈ itc.get_requests, r.response ≠ none ∧ r ∈ itc.requests)
    ∧ List.Sublist itc.get_requests itc.requests
    ∧ (∀ r ∈ itc.requests, r.response ≠ none → r ∈ itc.get_requests) := by
  refine ⟨?_, ?_, ?_⟩
  · intro r hr
    unfold NetworkInterceptor.get_requests at hr
    have h := List.mem_filter.mp hr
    exact ⟨by simpa [Option.isSome_iff_ne_none] using h.2, h.1⟩
  · exact List.filter_sublist _
  · intro r hr hne
    unfold NetworkInterceptor.get_requests
    exact List.mem_filter.mpr ⟨hr, by simpa [Option.isSome_iff_ne_none] using hne⟩

/-- Witness for C4: in a store with one matched and one pending record,
the matched record is returned. -/
theorem claim_C4_witness : recFilled ∈ itcMixed.get_requests :=
  (claim_C4 itcMixed).2.2 recFilled (by simp [itcMixed]) (by simp [recFilled])

/-- Counterexample to C9 as stated: a failure class other than body
decoding — re.search raising on an invalid filter pattern inside
observeRequest — is also fully swallowed: the callback catches it (flag
true), records nothing, and propagates nothing to the caller. -/
theorem claim_C9_counterexample :
    NetworkInterceptor.on_request badSearch itcBadPattern evGet1 "id9" 7
      = (itcBadPattern, true)
    ∧ itcBadPattern.requests = [] := ⟨rfl, rfl⟩

/-- Claim C9 as amended: a body-decode failure makes observeResponse store
a partial response (status and headers retained, body null) without any
error reaching the caller; however it is not the only swallowed class —
both interceptor callbacks swallow every failure raised inside them
(leaving state unchanged when the failure precedes the mutation), while
session operations re-raise the capability failure unchanged. -/
theorem claim_C9_amended :
    (∀ (search : String → String → Except PyError Bool) (itc : NetworkInterceptor)
        (ev : ResponseEvent) (P rest : List RequestRecord) (r : RequestRecord)
        (e : PyError),
      patternVerdict search itc.url_pattern ev.url = Except.ok true →
      itc.requests = P ++ r :: rest →
      (∀ x ∈ P, x.url = ev.url → x.response ≠ none) →
      r.url = ev.url → r.response = none →
      NetworkInterceptor.on_response search itc ev (Except.error e)
        = ({ itc with
              requests := P ++
                { r with
                    response := some
                      { status_code := ev.status, headers := ev.headers, body := none } }
                :: rest },
           false))
    ∧ (∀ (search : String → String → Except PyError Bool) (itc : NetworkInterceptor)
        (ev : RequestEvent) (id : String) (now : Nat) (e : PyError),
      patternVerdict search itc.url_pattern ev.url = Except.error e →
      NetworkInterceptor.on_request search itc ev id now = (itc, true))
    ∧ (∀ (search : String → String → Except PyError Bool) (itc : NetworkInterceptor)
        (ev : ResponseEvent) (b : Except PyError String) (e : PyError),
      patternVerdict search itc.url_pattern ev.url = Except.error e →
      NetworkInterceptor.on_response search itc ev b = (itc, true))
    ∧ (∀ (s : BrowserSession) (url : String) (e : PyError) (now : Nat) (h : Handle),
      s.page = some h →
      (s.navigate url (Except.error e) now).result = Except.error e) := by
  refine ⟨?_, ?_, ?_, ?_⟩
  · intro search itc ev P rest r e hpat hreq hP hru hrn
    exact on_response_fill search itc ev (Except.error e) P rest r hpat hreq hP hru hrn
  · intro search itc ev id now e hpe
    unfold NetworkInterceptor.on_request
    rw [hpe]
  · intro search itc ev b e hpe
    unfold NetworkInterceptor.on_response
    rw [hpe]
  · intro s url e now h hp
    unfold BrowserSession.navigate
    rw [hp]

/-- Witness for the amended C9: a concrete decode failure yields a partial
record with the status and headers of the response and a null body, with
no exception escaping the callback. -/
theorem claim_C9_witness :
    NetworkInterceptor.on_response search0 itcDup respEv1
        (Except.error (PyError.otherError "connection reset while reading body"))
      = ({ itcDup with
            requests :=
              [{ reqA "http://x/dup" with
                  response := some
                    { status_code := 200, headers := [("h", "1")], body := none } },
               reqB "http://x/dup"] },
         false) := by
  have H := claim_C9_amended.1 search0 itcDup respEv1 []
    [reqB "http://x/dup"] (reqA "http://x/dup")
    (PyError.otherError "connection reset while reading body")
    rfl rfl (by simp) rfl rfl
  simpa [respEv1] using H

/-- Counterexample to C10 as stated: a PUT request carries a body, but the
recorded InterceptedRequest stores a null body for it (only POST bodies
are kept). -/
theorem claim_C10_counterexample :
    evPut.post_data = some "payload"
    ∧ ((NetworkInterceptor.on_request search0 itcEmpty evPut "rid" 3).1.requests.map
        (fun r => r.post_data)) = [none] := ⟨rfl, rfl⟩

/-- Claim C10 as amended: for every observed request event that passes the
filter, exactly one record is appended, whose body field is the request
post data when the HTTP method is POST and null for every other method
(including PUT and PATCH). -/
theorem claim_C10_amended (search : String → String → Except PyError Bool)
    (itc : NetworkInterceptor) (ev : RequestEvent) (id : String) (now : Nat)
    (hpat : patternVerdict search itc.url_pattern ev.url = Except.ok true) :
    (NetworkInterceptor.on_request search itc ev id now).1.requests
      = itc.requests ++
        [{ request_id := id, url := ev.url, method := ev.method, headers := ev.headers,
           post_data := if ev.method = "POST" then ev.post_data else none,
           timestamp := now, response := none }] := by
  unfold NetworkInterceptor.on_request
  rw [hpat]
  simp [beq_iff_eq]

/-- Witness for the amended C10: a concrete POST event is recorded with its
body present. -/
theorem claim_C10_witness :
    (NetworkInterceptor.on_request search0 itcEmpty evPost "rp" 4).1.requests
      = [{ request_id := "rp", url := "http://api.example/p", method := "POST",
           headers := [], post_data := some "data", timestamp := 4, response := none }] := by
  have H := claim_C10_amended search0 itcEmpty evPost "rp" 4 rfl
  simpa [itcEmpty, evPost] using H

/-- Claim C6: on a session that was never initialized (page and context
handles null), every one of the ten operations fails with the
uninitialized-session error, invokes no capability operation, and leaves
the session state unchanged. -/
theorem claim_C6 (s : BrowserSession) (hp : s.page = none) (hc : s.context = none) :
    (∀ url cr now, s.navigate url cr now
      = ⟨Except.error uninitializedError, s, false⟩)
    ∧ (∀ sc cr now, s.execute_script sc cr now
      = ⟨Except.error uninitializedError, s, false⟩)
    ∧ (∀ cr now, s.get_content cr now
      = ⟨Except.error uninitializedError, s, false⟩)
    ∧ (∀ sel cr now, s.wait_for_selector sel cr now
      = ⟨Except.error uninitializedError, s, false⟩)
    ∧ (∀ sel cr now, s.click sel cr now
      = ⟨Except.error uninitializedError, s, false⟩)
    ∧ (∀ sel tx cr now, s.type_text sel tx cr now
      = ⟨Except.error uninitializedError, s, false⟩)
    ∧ (∀ sel q sh now, s.screenshot sel q sh now
      = ⟨Except.error uninitializedError, s, false⟩)
    ∧ (∀ hs cr now, s.set_extra_headers hs cr now
      = ⟨Except.error uninitializedError, s, false⟩)
    ∧ (∀ cs cr now, s.set_cookies cs cr now
      = ⟨Except.error uninitializedError, s, false⟩)
    ∧ (∀ u cr now, s.get_cookies u cr now
      = ⟨Except.error uninitializedError, s, false⟩) := by
  refine ⟨?_, ?_, ?_, ?_, ?_, ?_, ?_, ?_, ?_, ?_⟩ <;> intros <;>
    simp [BrowserSession.navigate, BrowserSession.execute_script,
      BrowserSession.get_content, BrowserSession.wait_for_selector,
      BrowserSession.click, BrowserSession.type_text, BrowserSession.screenshot,
      BrowserSession.set_extra_headers, BrowserSession.set_cookies,
      BrowserSession.get_cookies, hp, hc]

/-- Witness for C6: navigate on a concrete never-initialized session. -/
theorem claim_C6_witness :
    uninitS.navigate "http://example.com" (Except.ok "http://example.com/") 3
      = ⟨Except.error uninitializedError, uninitS, false⟩ :=
  (claim_C6 uninitS rfl rfl).1 "http://example.com" (Except.ok "http://example.com/") 3

/-- Claim C7: setExtraHeaders merges rather than replaces: after applying
two mappings with disjoint keys in sequence, the accumulated mapping handed
to the capability on the second call contains every pair of the second
mapping, every pair of the first, and retains all previously accumulated
keys that neither mapping names. -/
theorem claim_C7 (s : BrowserSession) (hctx : s.context ≠ none)
    (h1 h2 : List (String × String)) (now1 now2 : Nat)
    (hdisj : ∀ k, lookupD h1 k ≠ none → lookupD h2 k = none) :
    (∀ k v, lookupD h2 k = some v →
      lookupD (((s.set_extra_headers h1 (Except.ok ()) now1).session.set_extra_headers
        h2 (Except.ok ()) now2).session.custom_headers) k = some v)
    ∧ (∀ k v, lookupD h1 k = some v →
      lookupD (((s.set_extra_headers h1 (Except.ok ()) now1).session.set_extra_headers
        h2 (Except.ok ()) now2).session.custom_headers) k = some v)
    ∧ (∀ k, lookupD h1 k = none → lookupD h2 k = none →
      lookupD (((s.set_extra_headers h1 (Except.ok ()) now1).session.set_extra_headers
        h2 (Except.ok ()) now2).session.custom_headers) k
        = lookupD s.custom_headers k) := by
  rcases hcx : s.context with _ | c
  · exact absurd hcx hctx
  have key : ((s.set_extra_headers h1 (Except.ok ()) now1).session.set_extra_headers
      h2 (Except.ok ()) now2).session.custom_headers
      = dictUpdate (dictUpdate s.custom_headers h1) h2 := by
    simp [BrowserSession.set_extra_headers, hcx]
  refine ⟨?_, ?_, ?_⟩
  · intro k v hv
    rw [key, lookupD_dictUpdate, hv]
    rfl
  · intro k v hv
    have h2n : lookupD h2 k = none := hdisj k (by rw [hv]; exact Option.some_ne_none v)
    rw [key, lookupD_dictUpdate, lookupD_dictUpdate, h2n, hv]
    rfl
  · intro k hn1 hn2
    rw [key, lookupD_dictUpdate, lookupD_dictUpdate, hn1, hn2]
    rfl

/-- Witness for C7: two concrete disjoint single-key mappings are both
present in the accumulated headers after two calls. -/
theorem claim_C7_witness :
    lookupD (((headerSession.set_extra_headers [("x-a", "1")] (Except.ok ()) 1).session.set_extra_headers
      [("x-b", "2")] (Except.ok ()) 2).session.custom_headers) "x-a" = some "1"
    ∧ lookupD (((headerSession.set_extra_headers [("x-a", "1")] (Except.ok ()) 1).session.set_extra_headers
      [("x-b", "2")] (Except.ok ()) 2).session.custom_headers) "x-b" = some "2" := by
  have hdisj : ∀ k, lookupD [("x-a", "1")] k ≠ none → lookupD [("x-b", "2")] k = none := by
    intro k hk
    by_cases hak : ("x-a" : String) = k
    · subst hak
      rfl
    · exfalso
      apply hk
      show (if ("x-a" == k) = true then some "1" else lookupD [] k) = none
      rw [if_neg (by simpa using hak)]
      rfl
  have H := claim_C7 headerSession (by simp [headerSession, initializedSession])
    [("x-a", "1")] [("x-b", "2")] 1 2 hdisj
  exact ⟨H.2.1 "x-a" "1" rfl, H.1 "x-b" "2" rfl⟩

/-- Counterexample to C8 as stated: in a session whose page close fails but
whose browser close would succeed, close leaves every handle in place — the
browser release step is never attempted, so the steps are not independent. -/
theorem claim_C8_counterexample :
    sessionC8.close = (sessionC8, true)
    ∧ sessionC8.browser = some { close_ok := true }
    ∧ (sessionC8.close).1.browser = some { close_ok := true } := ⟨rfl, rfl, rfl⟩

/-- Claim C8 as amended: close attempts the release steps in the fixed
order page, context, browser, driver handle, inside a single exception
handler: the first failing step aborts all remaining steps (the handles
reached so far stay cleared, the failing and later handles stay set) and
the exception is swallowed, so close returns normally; when every step
succeeds all four handles are cleared. -/
theorem claim_C8_amended (s : BrowserSession) :
    (∀ h, s.page = some h → h.close_ok = false → s.close = (s, true))
    ∧ (closesOk s.page → ∀ h, s.context = some h → h.close_ok = false →
        s.close = ({ s with page := none }, true))
    ∧ (closesOk s.page → closesOk s.context → ∀ h, s.browser = some h →
        h.close_ok = false →
        s.close = ({ s with page := none, context := none }, true))
    ∧ (closesOk s.page → closesOk s.context → closesOk s.browser →
        ∀ h, s.playwright = some h → h.close_ok = false →
        s.close = ({ s with page := none, context := none, browser := none }, true))
    ∧ (closesOk s.page → closesOk s.context → closesOk s.browser →
        closesOk s.playwright →
        s.close
          = ({ s with
                page := none, context := none, browser := none, playwright := none },
             false)) := by
  refine ⟨?_, ?_, ?_, ?_, ?_⟩
  · intro h hp hcf
    unfold BrowserSession.close closeBody
    rw [closePage_fail s h hp hcf, seqClose_error, seqClose_error, seqClose_error]
    rfl
  · intro hpOk h hc hcf
    unfold BrowserSession.close closeBody
    rw [closePage_ok s hpOk, seqClose_ok,
      closeContext_fail ({ s with page := none }) h hc hcf,
      seqClose_error, seqClose_error]
    rfl
  · intro hpOk hcOk h hb hcf
    unfold BrowserSession.close closeBody
    rw [closePage_ok s hpOk, seqClose_ok,
      closeContext_ok ({ s with page := none }) hcOk, seqClose_ok,
      closeBrowser_fail ({ s with page := none, context := none }) h hb hcf,
      seqClose_error]
    rfl
  · intro hpOk hcOk hbOk h hw hcf
    unfold BrowserSession.close closeBody
    rw [closePage_ok s hpOk, seqClose_ok,
      closeContext_ok ({ s with page := none }) hcOk, seqClose_ok,
      closeBrowser_ok ({ s with page := none, context := none }) hbOk, seqClose_ok,
      closePlaywright_fail ({ s with page := none, context := none, browser := none }) h hw hcf]
    rfl
  · intro hpOk hcOk hbOk hwOk
    unfold BrowserSession.close closeBody
    rw [closePage_ok s hpOk, seqClose_ok,
      closeContext_ok ({ s with page := none }) hcOk, seqClose_ok,
      closeBrowser_ok ({ s with page := none, context := none }) hbOk, seqClose_ok,
      closePlaywright_ok ({ s with page := none, context := none, browser := none }) hwOk]
    rfl

/-- Witness for the amended C8: the failing page close on a concrete
session aborts the teardown with the state unchanged and the error
swallowed. -/
theorem claim_C8_witness : sessionC8.close = (sessionC8, true) :=
  (claim_C8_amended sessionC8).1 { close_ok := false } rfl rfl

theorem pool_eta_unlocked (p : BrowserPool) (hl : p.locked = false) :
    ({ p with locked := false } : BrowserPool) = p := by
  obtain ⟨a, b, c, d⟩ := p
  have hd : d = false := hl
  rw [hd]

theorem cleanup_expired_noop (p : BrowserPool) (now : Nat)
    (hexp : ∀ kv ∈ p.sessions, ¬(now - kv.2.last_activity > p.session_timeout)) :
    p.cleanup_expired now = PoolResult.ok () p := by
  unfold BrowserPool.cleanup_expired
  have hfil : p.sessions.filter
      (fun kv => decide (now - kv.2.last_activity > p.session_timeout)) = [] := by
    rw [List.filter_eq_nil_iff]
    intro kv hkv
    simpa using hexp kv hkv
  rw [hfil]
  rfl

/-- Claim C1: starting from a fresh pool, no sequence of createSession and
closeSession operations ever brings the number of registered sessions
above maxSessions; and a createSession finding the pool at capacity after
the expiry sweep fails with the PoolExhausted error and registers
nothing. -/
theorem claim_C1 :
    (∀ (maxS t : Nat) (ops : List PoolOp),
      (runOps (mkPool maxS t) ops).sessions.length ≤ maxS)
    ∧ (∀ (p : BrowserPool) (now : Nat) (fid : String) (ie : Option PyError),
      p.locked = false →
      (∀ kv ∈ p.sessions, ¬(now - kv.2.last_activity > p.session_timeout)) →
      p.sessions.length = p.max_sessions →
      p.create_session now fid ie
        = PoolResult.error (poolExhaustedError p.max_sessions) p) := by
  constructor
  · intro maxS t ops
    have h := runOps_invariant ops (mkPool maxS t) (by simp [mkPool])
    rwa [runOps_max ops (mkPool maxS t)] at h
  · intro p now fid ie hl hexp hcap
    have hcl : ({ p with locked := true } : BrowserPool).cleanup_expired now
        = PoolResult.ok () ({ p with locked := true }) :=
      cleanup_expired_noop ({ p with locked := true }) now hexp
    unfold BrowserPool.create_session
    rw [hcl]
    simp only [hl, Bool.false_eq_true, if_false]
    simp [afterCleanup, hcap, pool_eta_unlocked p hl]

/-- Witness for C1: a concrete pool of capacity 1 at capacity with a live
session rejects the next createSession with PoolExhausted and keeps its
mapping unchanged. -/
theorem claim_C1_witness :
    fullPool.create_session 6 "b" none
      = PoolResult.error (poolExhaustedError fullPool.max_sessions) fullPool :=
  claim_C1.2 fullPool 6 "b" none rfl (by decide) rfl

/-- Claim C2 fails on the code: at the concrete failing input (capacity-1
pool whose only session is expired at the time of the call), create_session
does not evict and succeed — it blocks forever, because the expiry sweep
calls close_session, which re-acquires the non-reentrant pool lock already
held by create_session.  The third conjunct records that the session was
indeed expired at the call. -/
theorem claim_C2_code_deadlock :
    (expiredPool.create_session 100 "fresh" none).isBlocked = true
    ∧ (expiredPool.create_session 100 "fresh" none).state.sessions
        = [("old", initializedSession "old" 0)]
    ∧ 100 - (initializedSession "old" 0).last_activity > expiredPool.session_timeout :=
  ⟨rfl, rfl, by decide⟩

/-- Claim C5: closeSession is idempotent in effect: on a pool whose lock is
free, the first call on a registered id removes exactly that entry and
returns present, and a second call on the now-absent id returns not-present
and leaves the mapping unchanged. -/
theorem claim_C5 (p : BrowserPool) (id : String) (s : BrowserSession)
    (hl : p.locked = false) (hnd : (p.sessions.map Prod.fst).Nodup)
    (hfind : lookupSession p.sessions id = some s) :
    p.close_session id
      = PoolResult.ok true { p with sessions := eraseKey p.sessions id }
    ∧ lookupSession (eraseKey p.sessions id) id = none
    ∧ ({ p with sessions := eraseKey p.sessions id } : BrowserPool).close_session id
      = PoolResult.ok false { p with sessions := eraseKey p.sessions id } := by
  refine ⟨?_, lookup_eraseKey_self p.sessions id hnd, ?_⟩
  · unfold BrowserPool.close_session
    simp [hl, hfind]
  · unfold BrowserPool.close_session
    simp [hl, lookup_eraseKey_self p.sessions id hnd]

/-- Witness for C5 on a concrete two-session pool: closing s1 removes it
and returns present; closing it again returns not-present with the pool
unchanged. -/
theorem claim_C5_witness :
    poolC5.close_session "s1"
      = PoolResult.ok true { poolC5 with sessions := eraseKey poolC5.sessions "s1" }
    ∧ lookupSession (eraseKey poolC5.sessions "s1") "s1" = none
    ∧ ({ poolC5 with sessions := eraseKey poolC5.sessions "s1" } : BrowserPool).close_session "s1"
      = PoolResult.ok false { poolC5 with sessions := eraseKey poolC5.sessions "s1" } :=
  claim_C5 poolC5 "s1" (initializedSession "s1" 0) rfl (by decide) rfl

end BrowserRpc
